import Mathlib

set_option autoImplicit false

/-!
Shallow embedding of `src/backend/app.py` (Wavelength-style round service).

The Flask app keeps a module-level dict `ROUNDS : Dict[str, Dict[str, Any]]`
mapping round ids to `{"target": int, "created_at": float}` records, sweeps
entries older than `ROUND_TTL_SECONDS` at the start of each request, and
serves two POST handlers, `create_round` and `reveal`.

Modelling choices:
* the dict is an association list with dict semantics (`findR` returns the
  first binding; insertion replaces any existing binding; `pop` removes the
  key), keys being the round-id strings;
* wall-clock times (`time.time()` floats) are integers (an exact-real
  timeline at unit granularity: every claim here is an order/difference
  statement invariant under rescaling, so no claim depends on fractional
  timestamps); the two `time.time()` calls a single request makes are
  modelled as one instant `now`;
* JSON values decoded by `request.get_json` are the `PyVal` type (floats as
  rationals; non-finite floats are outside the model, JSON cannot produce
  them with Flask defaults);
* the OpenAI-backed generators `make_anchors` / `make_clue` are external
  collaborators: they are passed in as oracle functions returning `GenResult`,
  whose `validationError` constructor is a pydantic `ValidationError` raised
  inside `client.responses.parse` and `backendError` is any other exception
  (network failure, the `RuntimeError` on unparsed output, ...);
* an exception escaping the handler (e.g. `AttributeError` from calling
  `.get` on a non-dict body) is the explicit `unhandledError` outcome.
-/

/-- Python truthiness and int() coercion need a model of decoded JSON
values: None, int, float (JSON numbers with a fractional part), str, bool,
list and object. -/
inductive PyVal where
  | none
  | int (n : Int)
  | float (q : ℚ)
  | str (s : String)
  | bool (b : Bool)
  | list (l : List PyVal)
  | obj (fields : List (String × PyVal))

/-- Python truthiness (`if not x`): None, 0, 0.0, "", False, [] and \x7b\x7d
are falsy, everything else is truthy. -/
def pyTruthy : PyVal → Bool
  | .none => false
  | .int n => n != 0
  | .float q => q != 0
  | .str s => s != ""
  | .bool b => b
  | .list l => !l.isEmpty
  | .obj fields => !fields.isEmpty

/-- Python dict `.get(key)` on a string-keyed dict: first binding, defaulting
to None. -/
def dictGet (fields : List (String × PyVal)) (key : String) : PyVal :=
  match fields with
  | [] => .none
  | (k, v) :: rest => if k = key then v else dictGet rest key

/-- Python `int(f)` on a finite float truncates toward zero. `Int.tdiv` is
truncating division, and `q.num / q.den` is the value of `q` in lowest
terms. -/
def pyTruncFloat (q : ℚ) : Int :=
  Int.tdiv q.num (q.den : Int)

/-- Python `str.strip()`: drop whitespace from both ends (Unicode
whitespace approximated by `Char.isWhitespace`). -/
def pyStrip (s : String) : String :=
  ⟨((s.data.dropWhile Char.isWhitespace).reverse.dropWhile Char.isWhitespace).reverse⟩

/-- Digit run for Python `int(s)`: all characters must be ASCII digits
(Python's underscore separators and non-ASCII digits are not modelled; no
claim exercises them). -/
def digitsToNatAux : List Char → Nat → Option Nat
  | [], acc => some acc
  | c :: rest, acc =>
    if c.isDigit then digitsToNatAux rest (acc * 10 + (c.toNat - 48))
    else Option.none

/-- Nonempty all-digit run, else ValueError. -/
def digitsToNat : List Char → Option Nat
  | [] => Option.none
  | cs => digitsToNatAux cs 0

/-- Python `int(s)` on a string: optional surrounding whitespace and sign
around a nonempty run of digits, else ValueError. -/
def pyStrToInt (s : String) : Option Int :=
  match (pyStrip s).data with
  | '-' :: rest => (digitsToNat rest).map (fun n => -(n : Int))
  | '+' :: rest => (digitsToNat rest).map (fun n => (n : Int))
  | rest => (digitsToNat rest).map (fun n => (n : Int))

/-- Python `int(guess)` under `except (TypeError, ValueError)`: ints pass
through, bools count as 0/1, finite floats truncate toward zero, strings
parse or raise ValueError, and None/list/dict raise TypeError. -/
def pyToInt : PyVal → Option Int
  | .none => Option.none
  | .int n => some n
  | .float q => some (pyTruncFloat q)
  | .str s => pyStrToInt s
  | .bool b => some (if b then 1 else 0)
  | .list _ => Option.none
  | .obj _ => Option.none

/-- Round record stored in `ROUNDS`: `\x7b"target": target, "created_at":
time.time()\x7d` (app.py line 162). -/
structure RoundRecord where
  target : Int
  created_at : Int
deriving DecidableEq, Repr

/-- The `ROUNDS` dict: an association list from round-id strings to
records. -/
abbrev Rounds : Type := List (String × RoundRecord)

/-- Dict key lookup (`round_id in ROUNDS` / `ROUNDS[round_id]`): the first
binding for the key. -/
def findR (store : Rounds) (rid : String) : Option RoundRecord :=
  match store with
  | [] => Option.none
  | (k, r) :: rest => if k = rid then some r else findR rest rid

/-- Dict `ROUNDS.pop(rid, None)`: removes the binding for `rid`. -/
def eraseKey (rid : String) (store : Rounds) : Rounds :=
  store.filter (fun p => p.1 ≠ rid)

/-- Dict assignment `ROUNDS[round_id] = record`: binds the key, replacing
any previous binding. -/
def insertR (rid : String) (rec : RoundRecord) (store : Rounds) : Rounds :=
  (rid, rec) :: eraseKey rid store

/-- Keys of the store. -/
abbrev keysR (store : Rounds) : List String :=
  store.map Prod.fst

/-- `ROUND_TTL_SECONDS = 10 * 60` (app.py line 24). -/
def ROUND_TTL_SECONDS : Int := 10 * 60

/-- `cleanup_old_rounds` (app.py lines 26-33): collects every id whose
record satisfies `now - created_at > ROUND_TTL_SECONDS` and pops it;
equivalently, keeps exactly the records with `now - created_at ≤ TTL`. -/
def cleanup_old_rounds (now : Int) (store : Rounds) : Rounds :=
  store.filter (fun p => decide (now - p.2.created_at ≤ ROUND_TTL_SECONDS))

/-- Validated anchors produced by `make_anchors` (pydantic model `Anchors`,
app.py lines 35-54); the field validators have already trimmed the strings
and checked the length bounds when a `GenResult.ok` is produced. -/
structure Anchors where
  leftAnchor : String
  rightAnchor : String
  spectrumLabel : String
deriving DecidableEq, Repr

/-- Outcome of one generator call: parsed ok, pydantic ValidationError, or
any other exception (network error, RuntimeError on unparsed output). -/
inductive GenResult (α : Type) where
  | ok (a : α)
  | validationError (details : String)
  | backendError (details : String)

/-- Public response of a successful `create_round` (the dict passed to
`jsonify` at app.py lines 165-174). -/
structure RoundPublic where
  roundId : String
  theme : String
  leftAnchor : String
  rightAnchor : String
  spectrumLabel : String
  clue : String
deriving DecidableEq, Repr

/-- The JSON object sent to the client, as key-value pairs in the order the
dict literal at app.py lines 165-174 writes them. -/
def RoundPublic.toFields (p : RoundPublic) : List (String × String) :=
  [("roundId", p.roundId), ("theme", p.theme), ("leftAnchor", p.leftAnchor),
   ("rightAnchor", p.rightAnchor), ("spectrumLabel", p.spectrumLabel),
   ("clue", p.clue)]

/-- Result of the `create_round` handler. -/
inductive CreateResult where
  | success (pub : RoundPublic)
  | themeRequired
  | modelOutputInvalid (details : String)
  | generationFailed (details : String)
  | unhandledError
deriving DecidableEq, Repr

/-- Payload of a successful reveal (app.py line 211). -/
structure RevealSuccess where
  target : Int
  distance : Int
  score : String
deriving DecidableEq, Repr

/-- Result of the `reveal` handler. -/
inductive RevealResult where
  | success (r : RevealSuccess)
  | unknownOrExpiredRound
  | guessRequired
  | guessMustBeInteger
  | guessOutOfRange
  | unhandledError
deriving DecidableEq, Repr

/-- `body = request.get_json(silent=True) or \x7b\x7d` (app.py lines 145 and
181): `Option.none` models an absent body, invalid JSON, or JSON null (all
make `get_json` return None); a falsy decoded value is replaced by the empty
dict. -/
def bodyOrEmpty (body : Option PyVal) : PyVal :=
  match body with
  | Option.none => .obj []
  | some v => if pyTruthy v then v else .obj []

/-- `create_round` (app.py lines 141-174), parametrised by the request
instant `now`, the decoded body, the server-drawn `target`
(`random.randint(0, 100)`), the fresh uuid `newId`, and the two generator
oracles (`make_anchors`, `make_clue`). Returns the response and the new
store. -/
def create_round (now : Int) (store : Rounds) (body : Option PyVal)
    (target : Int) (newId : String)
    (genAnchors : String → GenResult Anchors)
    (genClue : String → Anchors → Int → GenResult String) :
    CreateResult × Rounds :=
  let store1 := cleanup_old_rounds now store
  match bodyOrEmpty body with
  | .obj fields =>
    let themeVal := dictGet fields "theme"
    match (if pyTruthy themeVal then themeVal else .str "") with
    | .str s =>
      let theme := pyStrip s
      if theme = "" then (.themeRequired, store1)
      else
        match genAnchors theme with
        | .validationError d => (.modelOutputInvalid d, store1)
        | .backendError d => (.generationFailed d, store1)
        | .ok anchors =>
          match genClue theme anchors target with
          | .validationError d => (.modelOutputInvalid d, store1)
          | .backendError d => (.generationFailed d, store1)
          | .ok clue =>
            let store2 := insertR newId ⟨target, now⟩ store1
            (.success ⟨newId, theme, anchors.leftAnchor, anchors.rightAnchor,
              anchors.spectrumLabel, clue⟩, store2)
    | _ => (.unhandledError, store1)
  | _ => (.unhandledError, store1)

/-- Scoring of a validated guess against the stored target (app.py lines
202-208): `distance = abs(guess_int - target)`, `num_score = max(0, 100 -
distance)`, and the outcome string is "You Won!" exactly when `num_score >
80`, else "AWW... You Lost!". -/
def scoreString (distance : Int) : String :=
  if max 0 (100 - distance) > 80 then "You Won!" else "AWW... You Lost!"

/-- `reveal` (app.py lines 177-211): sweep, read `roundId` and `guess` from
the body, check store membership first, then validate the guess, then pop
the record and score. -/
def reveal (now : Int) (store : Rounds) (body : Option PyVal) :
    RevealResult × Rounds :=
  let store1 := cleanup_old_rounds now store
  match bodyOrEmpty body with
  | .obj fields =>
    let roundIdVal := dictGet fields "roundId"
    let guess := dictGet fields "guess"
    if pyTruthy roundIdVal then
      match roundIdVal with
      | .str rid =>
        match findR store1 rid with
        | Option.none => (.unknownOrExpiredRound, store1)
        | some rec =>
          match guess with
          | .none => (.guessRequired, store1)
          | g =>
            match pyToInt g with
            | Option.none => (.guessMustBeInteger, store1)
            | some gi =>
              if 0 ≤ gi ∧ gi ≤ 100 then
                let target := rec.target
                let store2 := eraseKey rid store1
                let distance := |gi - target|
                (.success ⟨target, distance, scoreString distance⟩, store2)
              else (.guessOutOfRange, store1)
      | _ => (.unknownOrExpiredRound, store1)
    else (.unknownOrExpiredRound, store1)
  | _ => (.unhandledError, store1)

/-- The canonical reveal request body `\x7b"roundId": rid, "guess": g\x7d`. -/
def mkRevealBody (rid : String) (g : PyVal) : PyVal :=
  .obj [("roundId", .str rid), ("guess", g)]

example :
    reveal 0 [("r1", ⟨50, 0⟩)] (some (mkRevealBody "r1" (.int 47))) =
      (.success ⟨50, 3, "You Won!"⟩, []) := by decide

example :
    reveal 0 [("r1", ⟨50, 0⟩)] (some (mkRevealBody "r1" (.float (Rat.mk' 7 2 (by decide) (by decide))))) =
      (.success ⟨50, 47, "AWW... You Lost!"⟩, []) := by decide

example :
    reveal 1000 [("r1", ⟨50, 0⟩)] (some (mkRevealBody "r1" (.int 47))) =
      (.unknownOrExpiredRound, []) := by decide

/-- One HTTP request against the store: a `create_round` call (with its
request instant, decoded body, drawn target, fresh uuid and generator
oracles) or a `reveal` call. -/
inductive Request where
  | createReq (now : Int) (body : Option PyVal) (target : Int) (newId : String)
      (genAnchors : String → GenResult Anchors)
      (genClue : String → Anchors → Int → GenResult String)
  | revealReq (now : Int) (body : Option PyVal)

/-- The uuid a request would bind on success (`None` for reveal). -/
def Request.newIdOf : Request → Option String
  | .createReq _ _ _ newId _ _ => some newId
  | .revealReq _ _ => Option.none

/-- Effect of one request on the `ROUNDS` store. -/
def execReq (store : Rounds) : Request → Rounds
  | .createReq now body target newId gA gC =>
      (create_round now store body target newId gA gC).2
  | .revealReq now body => (reveal now store body).2

/-- Effect of a sequence of requests on the store. -/
def execTrace (store : Rounds) : List Request → Rounds
  | [] => store
  | r :: rs => execTrace (execReq store r) rs

section StoreLemmas

theorem findR_nil (rid : String) : findR [] rid = Option.none := rfl

theorem findR_cons (k : String) (r : RoundRecord) (rest : Rounds) (rid : String) :
    findR ((k, r) :: rest) rid = if k = rid then some r else findR rest rid := rfl

theorem eraseKey_cons (rid k : String) (r : RoundRecord) (rest : Rounds) :
    eraseKey rid ((k, r) :: rest) =
      if k = rid then eraseKey rid rest else (k, r) :: eraseKey rid rest := by
  by_cases hk : k = rid <;> simp [eraseKey, List.filter_cons, hk]

theorem findR_eq_none_iff (store : Rounds) (rid : String) :
    findR store rid = Option.none ↔ rid ∉ keysR store := by
  induction store with
  | nil => simp [findR, keysR]
  | cons p rest ih =>
    obtain ⟨k, r⟩ := p
    by_cases hk : k = rid
    · subst hk
      simp [findR_cons, keysR]
    · simp only [findR_cons, if_neg hk, keysR, List.map_cons, List.mem_cons]
      rw [ih]
      push_neg
      exact ⟨fun h => ⟨fun he => hk he.symm, h⟩, fun h => h.2⟩

theorem findR_filter_of_keep (store : Rounds) (p : String × RoundRecord → Bool)
    (rid : String) (rec : RoundRecord)
    (hfind : findR store rid = some rec) (hkeep : p (rid, rec) = true) :
    findR (store.filter p) rid = some rec := by
  induction store with
  | nil => simp [findR] at hfind
  | cons q rest ih =>
    obtain ⟨k, r⟩ := q
    by_cases hk : k = rid
    · subst hk
      rw [findR_cons, if_pos rfl] at hfind
      obtain rfl : r = rec := by injection hfind
      simp [List.filter_cons, hkeep, findR_cons]
    · rw [findR_cons, if_neg hk] at hfind
      rcases hp : p (k, r) <;>
        simp [List.filter_cons, hp, findR_cons, hk, ih hfind]

theorem findR_filter_of_none (store : Rounds) (p : String × RoundRecord → Bool)
    (rid : String) (hfind : findR store rid = Option.none) :
    findR (store.filter p) rid = Option.none := by
  induction store with
  | nil => simp [findR]
  | cons q rest ih =>
    obtain ⟨k, r⟩ := q
    by_cases hk : k = rid
    · rw [findR_cons, if_pos hk] at hfind
      exact absurd hfind (by simp)
    · rw [findR_cons, if_neg hk] at hfind
      rcases hp : p (k, r) <;>
        simp [List.filter_cons, hp, findR_cons, hk, ih hfind]

theorem findR_filter_of_drop (store : Rounds) (p : String × RoundRecord → Bool)
    (rid : String) (rec : RoundRecord) (hnd : (keysR store).Nodup)
    (hfind : findR store rid = some rec) (hdrop : p (rid, rec) = false) :
    findR (store.filter p) rid = Option.none := by
  induction store with
  | nil => simp [findR] at hfind
  | cons q rest ih =>
    obtain ⟨k, r⟩ := q
    simp only [keysR, List.map_cons, List.nodup_cons] at hnd
    by_cases hk : k = rid
    · subst hk
      rw [findR_cons, if_pos rfl] at hfind
      obtain rfl : r = rec := by injection hfind
      rw [List.filter_cons]
      simp only [hdrop]
      exact findR_filter_of_none rest p k ((findR_eq_none_iff rest k).mpr hnd.1)
    · rw [findR_cons, if_neg hk] at hfind
      rcases hp : p (k, r) <;>
        simp [List.filter_cons, hp, findR_cons, hk, ih hnd.2 hfind]

theorem findR_eraseKey_self (store : Rounds) (rid : String) :
    findR (eraseKey rid store) rid = Option.none := by
  induction store with
  | nil => rfl
  | cons q rest ih =>
    obtain ⟨k, r⟩ := q
    by_cases hk : k = rid <;> simp [eraseKey_cons, hk, findR_cons, ih]

theorem findR_eraseKey_ne (store : Rounds) (rid rid' : String) (h : rid' ≠ rid) :
    findR (eraseKey rid store) rid' = findR store rid' := by
  induction store with
  | nil => rfl
  | cons q rest ih =>
    obtain ⟨k, r⟩ := q
    by_cases hk : k = rid
    · subst hk
      have hk' : k ≠ rid' := fun he => h he.symm
      simp [eraseKey_cons, findR_cons, hk', ih]
    · by_cases hk' : k = rid' <;>
        simp [eraseKey_cons, hk, findR_cons, hk', h, ih]

theorem keysR_filter_subset (store : Rounds) (p : String × RoundRecord → Bool)
    (rid : String) (h : rid ∈ keysR (store.filter p)) : rid ∈ keysR store := by
  simp only [keysR, List.mem_map] at h ⊢
  obtain ⟨q, hq, hrid⟩ := h
  exact ⟨q, (List.mem_filter.mp hq).1, hrid⟩

theorem keysR_cleanup_subset (now : Int) (store : Rounds) (rid : String)
    (h : rid ∈ keysR (cleanup_old_rounds now store)) : rid ∈ keysR store :=
  keysR_filter_subset store _ rid h

theorem keysR_eraseKey_subset (store : Rounds) (rid rid' : String)
    (h : rid' ∈ keysR (eraseKey rid store)) : rid' ∈ keysR store :=
  keysR_filter_subset store _ rid' h

theorem findR_cleanup_of_live (now : Int) (store : Rounds) (rid : String)
    (rec : RoundRecord) (hfind : findR store rid = some rec)
    (hlive : now - rec.created_at ≤ ROUND_TTL_SECONDS) :
    findR (cleanup_old_rounds now store) rid = some rec :=
  findR_filter_of_keep store _ rid rec hfind (by simp [hlive])

theorem findR_cleanup_of_expired (now : Int) (store : Rounds) (rid : String)
    (rec : RoundRecord) (hnd : (keysR store).Nodup)
    (hfind : findR store rid = some rec)
    (hexp : ROUND_TTL_SECONDS < now - rec.created_at) :
    findR (cleanup_old_rounds now store) rid = Option.none :=
  findR_filter_of_drop store _ rid rec hnd hfind (by simp [not_le.mpr hexp])

end StoreLemmas

section HandlerLemmas

theorem reveal_mkBody_eq (now : Int) (store : Rounds) (rid : String) (g : PyVal) :
    reveal now store (some (mkRevealBody rid g)) =
      if rid = "" then (.unknownOrExpiredRound, cleanup_old_rounds now store)
      else
        match findR (cleanup_old_rounds now store) rid with
        | Option.none => (.unknownOrExpiredRound, cleanup_old_rounds now store)
        | some rec =>
          match g with
          | .none => (.guessRequired, cleanup_old_rounds now store)
          | g =>
            match pyToInt g with
            | Option.none => (.guessMustBeInteger, cleanup_old_rounds now store)
            | some gi =>
              if 0 ≤ gi ∧ gi ≤ 100 then
                (.success ⟨rec.target, |gi - rec.target|,
                  scoreString |gi - rec.target|⟩,
                 eraseKey rid (cleanup_old_rounds now store))
              else (.guessOutOfRange, cleanup_old_rounds now store) := by
  by_cases hrid : rid = ""
  · subst hrid
    simp [reveal, mkRevealBody, bodyOrEmpty, pyTruthy, dictGet]
  · rcases hfind : findR (cleanup_old_rounds now store) rid with _ | rec
    · simp [reveal, mkRevealBody, bodyOrEmpty, pyTruthy, dictGet, hrid, hfind]
    · cases g <;>
        simp [reveal, mkRevealBody, bodyOrEmpty, pyTruthy, dictGet, hrid, hfind]

theorem create_round_snd_cases (now : Int) (store : Rounds) (body : Option PyVal)
    (target : Int) (newId : String) (gA : String → GenResult Anchors)
    (gC : String → Anchors → Int → GenResult String) :
    (create_round now store body target newId gA gC).2 = cleanup_old_rounds now store ∨
    (create_round now store body target newId gA gC).2 =
      insertR newId ⟨target, now⟩ (cleanup_old_rounds now store) := by
  simp only [create_round]
  repeat' split
  all_goals first
    | exact Or.inl rfl
    | exact Or.inr rfl

theorem reveal_snd_cases (now : Int) (store : Rounds) (body : Option PyVal) :
    (reveal now store body).2 = cleanup_old_rounds now store ∨
    ∃ rid, (reveal now store body).2 = eraseKey rid (cleanup_old_rounds now store) := by
  simp only [reveal]
  repeat' split
  all_goals first
    | exact Or.inl rfl
    | exact Or.inr ⟨_, rfl⟩

theorem create_round_success_inv (now : Int) (store : Rounds) (body : Option PyVal)
    (target : Int) (newId : String) (gA : String → GenResult Anchors)
    (gC : String → Anchors → Int → GenResult String) (pub : RoundPublic) (store2 : Rounds)
    (h : create_round now store body target newId gA gC = (.success pub, store2)) :
    ∃ theme anchors clue,
      theme ≠ "" ∧ gA theme = .ok anchors ∧ gC theme anchors target = .ok clue ∧
      pub = ⟨newId, theme, anchors.leftAnchor, anchors.rightAnchor,
        anchors.spectrumLabel, clue⟩ ∧
      store2 = insertR newId ⟨target, now⟩ (cleanup_old_rounds now store) := by
  simp only [create_round] at h
  repeat' split at h
  all_goals rw [Prod.mk.injEq] at h
  any_goals exact CreateResult.noConfusion h.1
  rename_i x3 fields hfields x2 s heq2 hne x1 anchors hA x0 clue hC
  obtain ⟨h1, h2⟩ := h
  rw [CreateResult.success.injEq] at h1
  subst h1
  subst h2
  exact ⟨pyStrip s, anchors, clue, hne, hA, hC, rfl, rfl⟩

end HandlerLemmas

section RequestLemmas

theorem reveal_mkBody_snd_cases (now : Int) (store : Rounds) (rid : String) (g : PyVal) :
    (reveal now store (some (mkRevealBody rid g))).2 = cleanup_old_rounds now store ∨
    (reveal now store (some (mkRevealBody rid g))).2 =
      eraseKey rid (cleanup_old_rounds now store) := by
  rw [reveal_mkBody_eq]
  repeat' split
  all_goals first
    | exact Or.inl rfl
    | exact Or.inr rfl

theorem reveal_success_store2 (now : Int) (store : Rounds) (rid : String) (g : PyVal)
    (res : RevealSuccess) (store2 : Rounds)
    (h : reveal now store (some (mkRevealBody rid g)) = (.success res, store2)) :
    store2 = eraseKey rid (cleanup_old_rounds now store) := by
  rw [reveal_mkBody_eq] at h
  repeat' split at h
  all_goals rw [Prod.mk.injEq] at h
  any_goals exact RevealResult.noConfusion h.1
  exact h.2.symm

theorem reveal_unknown_of_absent (now : Int) (store : Rounds) (rid : String) (g : PyVal)
    (h : rid ∉ keysR store) :
    (reveal now store (some (mkRevealBody rid g))).1 = .unknownOrExpiredRound := by
  rw [reveal_mkBody_eq]
  by_cases hrid : rid = ""
  · simp [hrid]
  · have hnone : findR (cleanup_old_rounds now store) rid = Option.none :=
      findR_filter_of_none store _ rid ((findR_eq_none_iff store rid).mpr h)
    simp [hrid, hnone]

theorem keysR_insertR_mem (store : Rounds) (rid rid' : String) (rec : RoundRecord)
    (h : rid' ∈ keysR (insertR rid rec store)) : rid' = rid ∨ rid' ∈ keysR store := by
  simp only [insertR, keysR, List.map_cons, List.mem_cons] at h
  rcases h with h | h
  · exact Or.inl h
  · exact Or.inr (keysR_eraseKey_subset store rid rid' h)

theorem keysR_execReq_not_mem (store : Rounds) (r : Request) (rid : String)
    (h : rid ∉ keysR store) (hfresh : Request.newIdOf r ≠ some rid) :
    rid ∉ keysR (execReq store r) := by
  intro hmem
  cases r with
  | createReq now body target newId gA gC =>
    rcases create_round_snd_cases now store body target newId gA gC with hc | hc
    · rw [execReq, hc] at hmem
      exact h (keysR_cleanup_subset now store rid hmem)
    · rw [execReq, hc] at hmem
      rcases keysR_insertR_mem (cleanup_old_rounds now store) newId rid ⟨target, now⟩ hmem
        with heq | hmem2
      · exact hfresh (by rw [Request.newIdOf, heq])
      · exact h (keysR_cleanup_subset now store rid hmem2)
  | revealReq now body =>
    rcases reveal_snd_cases now store body with hc | ⟨rid2, hc⟩
    · rw [execReq, hc] at hmem
      exact h (keysR_cleanup_subset now store rid hmem)
    · rw [execReq, hc] at hmem
      exact h (keysR_cleanup_subset now store rid
        (keysR_eraseKey_subset (cleanup_old_rounds now store) rid2 rid hmem))

theorem keysR_execTrace_not_mem (trace : List Request) (store : Rounds) (rid : String)
    (h : rid ∉ keysR store)
    (hfresh : ∀ r ∈ trace, Request.newIdOf r ≠ some rid) :
    rid ∉ keysR (execTrace store trace) := by
  induction trace generalizing store with
  | nil => exact h
  | cons r rest ih =>
    rw [execTrace]
    exact ih (execReq store r)
      (keysR_execReq_not_mem store r rid h (hfresh r (List.mem_cons_self r rest)))
      (fun r2 hr2 => hfresh r2 (List.mem_cons_of_mem r hr2))

end RequestLemmas

/-- A generator oracle that always parses successfully, for concrete runs. -/
def genA_ok : String → GenResult Anchors :=
  fun _ => .ok ⟨"Hot", "Cold", "Temperature"⟩

/-- A clue oracle that always parses successfully, for concrete runs. -/
def genC_ok : String → Anchors → Int → GenResult String :=
  fun _ _ _ => .ok "Concrete on a summer day"

/-- A generator oracle whose backend call fails, for concrete runs. -/
def genA_fail : String → GenResult Anchors :=
  fun _ => .backendError "boom"

/-- C1: once a `reveal(id, guess)` call succeeds, the record for `id` is
gone from the store, and every subsequent `reveal` with the same `id` —
after any further create/reveal requests whose fresh uuids differ from
`id` — returns `unknownOrExpiredRound`, whatever guess is supplied. -/
theorem claim_C1_reveal_consumes_round (now : Int) (store : Rounds) (rid : String)
    (g : PyVal) (res : RevealSuccess) (store2 : Rounds)
    (hsucc : reveal now store (some (mkRevealBody rid g)) = (.success res, store2)) :
    findR store2 rid = Option.none ∧
    ∀ trace : List Request, (∀ r ∈ trace, Request.newIdOf r ≠ some rid) →
      ∀ now2 g2,
        (reveal now2 (execTrace store2 trace) (some (mkRevealBody rid g2))).1 =
          .unknownOrExpiredRound := by
  have hstore2 : store2 = eraseKey rid (cleanup_old_rounds now store) :=
    reveal_success_store2 now store rid g res store2 hsucc
  have hgone : findR store2 rid = Option.none := by
    rw [hstore2]
    exact findR_eraseKey_self (cleanup_old_rounds now store) rid
  refine ⟨hgone, fun trace hfresh now2 g2 => ?_⟩
  exact reveal_unknown_of_absent now2 (execTrace store2 trace) rid g2
    (keysR_execTrace_not_mem trace store2 rid
      ((findR_eq_none_iff store2 rid).mp hgone) hfresh)

/-- C1 witness: a concrete successful reveal consumes the record, and after
a later create (fresh uuid "other") plus a reveal of that other round, a
second reveal of "r1" still fails with `unknownOrExpiredRound`. -/
theorem claim_C1_witness :
    findR ([] : Rounds) "r1" = Option.none ∧
    (reveal 4 (execTrace ([] : Rounds)
        [Request.createReq 2 (some (.obj [("theme", .str "Heat")])) 5 "other" genA_ok genC_ok,
         Request.revealReq 3 (some (mkRevealBody "other" (.int 5)))])
      (some (mkRevealBody "r1" (.int 1)))).1 = .unknownOrExpiredRound := by
  have h := claim_C1_reveal_consumes_round 0 [("r1", ⟨50, 0⟩)] "r1" (.int 47)
    ⟨50, 3, "You Won!"⟩ [] (by decide)
  refine ⟨h.1, h.2 _ ?_ 4 (.int 1)⟩
  intro r hr
  rcases hr with _ | ⟨_, hr⟩
  · simp [Request.newIdOf]
  · rcases hr with _ | ⟨_, hr⟩
    · simp [Request.newIdOf]
    · cases hr

/-- C2: a successful `create_round` responds with exactly the six fields
roundId, theme, leftAnchor, rightAnchor, spectrumLabel, clue — and no
"target" field; the payload is built from the fresh uuid, the stripped
theme, the generated anchors and the generated clue only. -/
theorem claim_C2_public_response_fields (now : Int) (store : Rounds) (body : Option PyVal)
    (target : Int) (newId : String) (gA : String → GenResult Anchors)
    (gC : String → Anchors → Int → GenResult String) (pub : RoundPublic) (store2 : Rounds)
    (h : create_round now store body target newId gA gC = (.success pub, store2)) :
    pub.toFields.map Prod.fst =
      ["roundId", "theme", "leftAnchor", "rightAnchor", "spectrumLabel", "clue"] ∧
    (∀ v, ("target", v) ∉ pub.toFields) ∧
    ∃ theme anchors clue,
      gA theme = .ok anchors ∧ gC theme anchors target = .ok clue ∧
      pub = ⟨newId, theme, anchors.leftAnchor, anchors.rightAnchor,
        anchors.spectrumLabel, clue⟩ := by
  obtain ⟨theme, anchors, clue, _, hA, hC, hpub, _⟩ :=
    create_round_success_inv now store body target newId gA gC pub store2 h
  refine ⟨by simp [RoundPublic.toFields], ?_, theme, anchors, clue, hA, hC, hpub⟩
  intro v hv
  simp [RoundPublic.toFields] at hv

/-- C2 witness: a concrete successful creation, its exact field list, and
the absence of a "target" key. -/
theorem claim_C2_witness :
    (RoundPublic.toFields ⟨"abc", "Temperature", "Hot", "Cold", "Temperature",
        "Concrete on a summer day"⟩).map Prod.fst =
      ["roundId", "theme", "leftAnchor", "rightAnchor", "spectrumLabel", "clue"] ∧
    ("target", "5") ∉ RoundPublic.toFields ⟨"abc", "Temperature", "Hot", "Cold",
        "Temperature", "Concrete on a summer day"⟩ := by
  have h := claim_C2_public_response_fields 0 [] (some (.obj [("theme", .str "Temperature")]))
    5 "abc" genA_ok genC_ok
    ⟨"abc", "Temperature", "Hot", "Cold", "Temperature", "Concrete on a summer day"⟩
    [("abc", ⟨5, 0⟩)] (by decide)
  exact ⟨h.1, h.2.1 "5"⟩

/-- C3: a reveal of a live round with a validated integer guess succeeds and
returns distance `abs (guess - target)`, which lies in [0, 100] when guess
and target do; the outcome is "You Won!" exactly when `max 0 (100 -
distance) > 80` and "AWW... You Lost!" otherwise; distance 20 loses and
distance 19 wins. -/
theorem claim_C3_scoring (now : Int) (store : Rounds) (rid : String) (rec : RoundRecord)
    (gi : Int) (hrid : rid ≠ "") (hfind : findR store rid = some rec)
    (hlive : now - rec.created_at ≤ ROUND_TTL_SECONDS)
    (htar0 : 0 ≤ rec.target) (htar1 : rec.target ≤ 100)
    (hg0 : 0 ≤ gi) (hg1 : gi ≤ 100) :
    reveal now store (some (mkRevealBody rid (.int gi))) =
      (.success ⟨rec.target, |gi - rec.target|, scoreString |gi - rec.target|⟩,
       eraseKey rid (cleanup_old_rounds now store)) ∧
    0 ≤ |gi - rec.target| ∧ |gi - rec.target| ≤ 100 ∧
    (∀ d : Int, (scoreString d = "You Won!" ↔ max 0 (100 - d) > 80) ∧
      (¬ max 0 (100 - d) > 80 → scoreString d = "AWW... You Lost!")) ∧
    scoreString 20 = "AWW... You Lost!" ∧
    scoreString 19 = "You Won!" := by
  have hfind2 : findR (cleanup_old_rounds now store) rid = some rec :=
    findR_cleanup_of_live now store rid rec hfind hlive
  refine ⟨?_, abs_nonneg _, ?_, ?_, by decide, by decide⟩
  · rw [reveal_mkBody_eq]
    simp [hrid, hfind2, pyToInt, hg0, hg1]
  · rw [abs_le]
    constructor <;> omega
  · intro d
    constructor
    · constructor
      · intro hs
        by_contra hc
        rw [scoreString, if_neg hc] at hs
        exact absurd hs (by decide)
      · intro hc
        rw [scoreString, if_pos hc]
    · intro hc
      rw [scoreString, if_neg hc]

/-- C3 witness: target 30, guess 49, distance 19, a win; the round is
consumed. -/
theorem claim_C3_witness :
    reveal 0 [("r2", ⟨30, 0⟩)] (some (mkRevealBody "r2" (.int 49))) =
      (.success ⟨30, 19, "You Won!"⟩, []) := by
  have h := (claim_C3_scoring 0 [("r2", ⟨30, 0⟩)] "r2" ⟨30, 0⟩ 49
    (by decide) (by decide) (by decide) (by decide) (by decide) (by decide) (by decide)).1
  exact h.trans (by decide)

theorem reveal_mkBody_found (now : Int) (store : Rounds) (rid : String) (rec : RoundRecord)
    (g : PyVal) (hrid : rid ≠ "")
    (hfind2 : findR (cleanup_old_rounds now store) rid = some rec) :
    reveal now store (some (mkRevealBody rid g)) =
      match g with
      | .none => (.guessRequired, cleanup_old_rounds now store)
      | g =>
        match pyToInt g with
        | Option.none => (.guessMustBeInteger, cleanup_old_rounds now store)
        | some gi =>
          if 0 ≤ gi ∧ gi ≤ 100 then
            (.success ⟨rec.target, |gi - rec.target|, scoreString |gi - rec.target|⟩,
             eraseKey rid (cleanup_old_rounds now store))
          else (.guessOutOfRange, cleanup_old_rounds now store) := by
  rw [reveal_mkBody_eq, if_neg hrid, hfind2]

/-- C4 counterexample to the claim as stated: the store holds a record for
"r1" (created at 0, revealed at 601, so past the TTL); a reveal with the
out-of-range guess 150 does not return the out-of-range ValidationFailure —
it returns `unknownOrExpiredRound` — and the record does not remain: the
request's sweep consumes it. -/
theorem claim_C4_counterexample :
    reveal 601 [("r1", ⟨50, 0⟩)] (some (mkRevealBody "r1" (.int 150))) =
      (.unknownOrExpiredRound, []) ∧
    (reveal 601 [("r1", ⟨50, 0⟩)] (some (mkRevealBody "r1" (.int 150)))).1 ≠
      .guessOutOfRange ∧
    findR (reveal 601 [("r1", ⟨50, 0⟩)] (some (mkRevealBody "r1" (.int 150)))).2 "r1" =
      Option.none :=
  ⟨by decide, by decide, by decide⟩

/-- C4 (amended): for a round id present in the store and within the TTL, a
reveal whose guess fails validation (missing, rejected by int(), or out of
range) returns the corresponding ValidationFailure; the record survives
with unchanged fields (only expired entries are swept) and remains
consumable by a later valid reveal. -/
theorem claim_C4_validation_preserves_record (now : Int) (store : Rounds) (rid : String)
    (rec : RoundRecord) (hrid : rid ≠ "") (hfind : findR store rid = some rec)
    (hlive : now - rec.created_at ≤ ROUND_TTL_SECONDS) :
    reveal now store (some (mkRevealBody rid PyVal.none)) =
      (.guessRequired, cleanup_old_rounds now store) ∧
    (∀ g, g ≠ PyVal.none → pyToInt g = Option.none →
      reveal now store (some (mkRevealBody rid g)) =
        (.guessMustBeInteger, cleanup_old_rounds now store)) ∧
    (∀ g gi, pyToInt g = some gi → ¬(0 ≤ gi ∧ gi ≤ 100) →
      reveal now store (some (mkRevealBody rid g)) =
        (.guessOutOfRange, cleanup_old_rounds now store)) ∧
    findR (cleanup_old_rounds now store) rid = some rec ∧
    (∀ gi : Int, 0 ≤ gi → gi ≤ 100 →
      (reveal now (cleanup_old_rounds now store) (some (mkRevealBody rid (.int gi)))).1 =
        .success ⟨rec.target, |gi - rec.target|, scoreString |gi - rec.target|⟩) := by
  have hfind2 : findR (cleanup_old_rounds now store) rid = some rec :=
    findR_cleanup_of_live now store rid rec hfind hlive
  refine ⟨?_, ?_, ?_, hfind2, ?_⟩
  · rw [reveal_mkBody_found now store rid rec PyVal.none hrid hfind2]
  · intro g hg0 hto
    rw [reveal_mkBody_found now store rid rec g hrid hfind2]
    cases g
    case none => exact absurd rfl hg0
    all_goals simp [hto]
  · intro g gi hto hrange
    rw [reveal_mkBody_found now store rid rec g hrid hfind2]
    cases g
    case none => simp [pyToInt] at hto
    all_goals simp [hto, hrange]
  · intro gi h0 h1
    have hfind3 : findR (cleanup_old_rounds now (cleanup_old_rounds now store)) rid =
        some rec := findR_cleanup_of_live now _ rid rec hfind2 hlive
    rw [reveal_mkBody_found now (cleanup_old_rounds now store) rid rec (.int gi) hrid hfind3]
    simp [pyToInt, h0, h1]

/-- C4 witness: with a live record, guess 150 is rejected out-of-range and
the record stays; the round is then still winnable with guess 47. -/
theorem claim_C4_witness :
    reveal 0 [("r1", ⟨50, 0⟩)] (some (mkRevealBody "r1" (.int 150))) =
      (.guessOutOfRange, [("r1", ⟨50, 0⟩)]) ∧
    (reveal 0 [("r1", ⟨50, 0⟩)] (some (mkRevealBody "r1" (.int 47)))).1 =
      .success ⟨50, 3, "You Won!"⟩ := by
  have h := claim_C4_validation_preserves_record 0 [("r1", ⟨50, 0⟩)] "r1" ⟨50, 0⟩
    (by decide) (by decide) (by decide)
  exact ⟨(h.2.2.1 (.int 150) 150 (by decide) (by decide)).trans (by decide),
    (h.2.2.2.2 47 (by decide) (by decide)).trans (by decide)⟩

/-- C6: a record whose age exceeds the TTL at the moment of a reveal call is
unreachable: the reveal returns `unknownOrExpiredRound` for every guess,
even though the record was still in the store when the request arrived. -/
theorem claim_C6_expired_unreachable (now : Int) (store : Rounds) (rid : String)
    (rec : RoundRecord) (hnd : (keysR store).Nodup)
    (hfind : findR store rid = some rec)
    (hexp : ROUND_TTL_SECONDS < now - rec.created_at) :
    ∀ g, (reveal now store (some (mkRevealBody rid g))).1 = .unknownOrExpiredRound := by
  intro g
  have hnone := findR_cleanup_of_expired now store rid rec hnd hfind hexp
  rw [reveal_mkBody_eq]
  by_cases hrid : rid = "" <;> simp [hrid, hnone]

/-- C6 witness: a record created at 0 and revealed at 601 (age 601 > 600)
yields `unknownOrExpiredRound`. -/
theorem claim_C6_witness :
    (reveal 601 [("r1", ⟨50, 0⟩)] (some (mkRevealBody "r1" (.int 10)))).1 =
      .unknownOrExpiredRound :=
  claim_C6_expired_unreachable 601 [("r1", ⟨50, 0⟩)] "r1" ⟨50, 0⟩
    (by decide) (by decide) (by decide) (.int 10)

/-- C7 counterexample to the claim as stated: with a live round, the
non-integral guess 3.5 is not rejected with "guess must be an integer
0-100"; Python int() truncates it to 3 and the reveal succeeds, scoring
distance 47 against target 50. -/
theorem claim_C7_counterexample :
    reveal 0 [("r1", ⟨50, 0⟩)]
        (some (mkRevealBody "r1" (.float (Rat.mk' 7 2 (by decide) (by decide))))) =
      (.success ⟨50, 47, "AWW... You Lost!"⟩, []) ∧
    (reveal 0 [("r1", ⟨50, 0⟩)]
        (some (mkRevealBody "r1" (.float (Rat.mk' 7 2 (by decide) (by decide)))))).1 ≠
      .guessMustBeInteger :=
  ⟨by decide, by decide⟩

/-- C7 (amended): a present guess that Python int() cannot coerce (non-numeric
string, list, or object) yields the "guess must be an integer 0-100"
ValidationFailure and is not scored; but a non-integral number is truncated
toward zero by int() and scored as that integer. -/
theorem claim_C7_int_coercion (now : Int) (store : Rounds) (rid : String)
    (rec : RoundRecord) (hrid : rid ≠ "") (hfind : findR store rid = some rec)
    (hlive : now - rec.created_at ≤ ROUND_TTL_SECONDS) :
    (∀ g, g ≠ PyVal.none → pyToInt g = Option.none →
      reveal now store (some (mkRevealBody rid g)) =
        (.guessMustBeInteger, cleanup_old_rounds now store)) ∧
    (∀ q : ℚ, 0 ≤ pyTruncFloat q → pyTruncFloat q ≤ 100 →
      reveal now store (some (mkRevealBody rid (.float q))) =
        (.success ⟨rec.target, |pyTruncFloat q - rec.target|,
           scoreString |pyTruncFloat q - rec.target|⟩,
         eraseKey rid (cleanup_old_rounds now store))) := by
  have hfind2 : findR (cleanup_old_rounds now store) rid = some rec :=
    findR_cleanup_of_live now store rid rec hfind hlive
  constructor
  · intro g hg0 hto
    rw [reveal_mkBody_found now store rid rec g hrid hfind2]
    cases g
    case none => exact absurd rfl hg0
    all_goals simp [hto]
  · intro q h0 h1
    rw [reveal_mkBody_found now store rid rec (.float q) hrid hfind2]
    simp [pyToInt, h0, h1]

/-- C7 witness: the unparseable string guess "abc" is rejected with the
integer ValidationFailure, while the float 3.5 is truncated and scored. -/
theorem claim_C7_witness :
    reveal 2 [("r1", ⟨50, 0⟩)] (some (mkRevealBody "r1" (.str "abc"))) =
      (.guessMustBeInteger, [("r1", ⟨50, 0⟩)]) ∧
    reveal 2 [("r1", ⟨50, 0⟩)]
        (some (mkRevealBody "r1" (.float (Rat.mk' 7 2 (by decide) (by decide))))) =
      (.success ⟨50, 47, "AWW... You Lost!"⟩, []) := by
  have h := claim_C7_int_coercion 2 [("r1", ⟨50, 0⟩)] "r1" ⟨50, 0⟩
    (by decide) (by decide) (by decide)
  exact ⟨(h.1 (.str "abc") (fun hc => PyVal.noConfusion hc) (by decide)).trans (by decide),
    (h.2 (Rat.mk' 7 2 (by decide) (by decide)) (by decide) (by decide)).trans (by decide)⟩

/-- C8 counterexample to the claim as stated: with an absent roundId and the
invalid guess 150, the code answers `unknownOrExpiredRound`, not the
out-of-range ValidationFailure the spec's step ordering promises. -/
theorem claim_C8_counterexample :
    (reveal 0 [] (some (mkRevealBody "nope" (.int 150)))).1 = .unknownOrExpiredRound ∧
    (reveal 0 [] (some (mkRevealBody "nope" (.int 150)))).1 ≠ .guessOutOfRange :=
  ⟨by decide, by decide⟩

/-- C8 (amended): reveal consults the store before validating the guess:
whenever the roundId is missing from the post-sweep store (or falsy), the
result is `unknownOrExpiredRound` for every guess, valid or not; guess
ValidationFailures can only arise for a present round. -/
theorem claim_C8_store_checked_first (now : Int) (store : Rounds) (rid : String)
    (habs : findR (cleanup_old_rounds now store) rid = Option.none) :
    ∀ g, (reveal now store (some (mkRevealBody rid g))).1 = .unknownOrExpiredRound := by
  intro g
  rw [reveal_mkBody_eq]
  by_cases hrid : rid = "" <;> simp [hrid, habs]

/-- C8 witness: unknown id with out-of-range guess still reports the
unknown-round failure. -/
theorem claim_C8_witness :
    (reveal 5 [] (some (mkRevealBody "nope" (.int 150)))).1 = .unknownOrExpiredRound :=
  claim_C8_store_checked_first 5 [] "nope" (by decide) (.int 150)

/-- C9: a reveal call for id X leaves every other record whose age is within
the TTL in the store, with target and created_at unchanged, whatever the
call's outcome. -/
theorem claim_C9_frame (now : Int) (store : Rounds) (X : String) (g : PyVal)
    (rid : String) (rec : RoundRecord) (hne : rid ≠ X)
    (hfind : findR store rid = some rec)
    (hlive : now - rec.created_at ≤ ROUND_TTL_SECONDS) :
    findR (reveal now store (some (mkRevealBody X g))).2 rid = some rec := by
  have h1 : findR (cleanup_old_rounds now store) rid = some rec :=
    findR_cleanup_of_live now store rid rec hfind hlive
  rcases reveal_mkBody_snd_cases now store X g with hc | hc <;> rw [hc]
  · exact h1
  · rw [findR_eraseKey_ne (cleanup_old_rounds now store) X rid hne]
    exact h1

/-- C9 witness: revealing "a" leaves the live record "b" untouched. -/
theorem claim_C9_witness :
    findR (reveal 0 [("a", ⟨10, 0⟩), ("b", ⟨20, 0⟩)]
      (some (mkRevealBody "a" (.int 5)))).2 "b" = some ⟨20, 0⟩ :=
  claim_C9_frame 0 [("a", ⟨10, 0⟩), ("b", ⟨20, 0⟩)] "a" (.int 5) "b" ⟨20, 0⟩
    (by decide) (by decide) (by decide)

/-- C5 counterexample to the claim as stated: with an expired record in the
store and a failing generator backend, the failed create request does not
leave the store's contents equal to what they were before — the request's
opening sweep removes the expired record. -/
theorem claim_C5_counterexample :
    create_round 1000 [("old", ⟨50, 0⟩)] (some (.obj [("theme", .str "x")])) 5 "new"
      genA_fail genC_ok = (.generationFailed "boom", []) ∧
    ([] : Rounds) ≠ [("old", (⟨50, 0⟩ : RoundRecord))] :=
  ⟨by decide, by decide⟩

/-- C5 (amended): when either generation call fails (structurally invalid
output or backend error), no record is inserted: the store after the failed
request is exactly the pre-request store with expired entries swept, and in
particular no id that was absent before is present afterward. -/
theorem claim_C5_generation_failure_no_insert (now : Int) (store : Rounds)
    (body : Option PyVal) (target : Int) (newId : String)
    (gA : String → GenResult Anchors) (gC : String → Anchors → Int → GenResult String)
    (res : CreateResult) (store2 : Rounds)
    (h : create_round now store body target newId gA gC = (res, store2))
    (hfail : (∃ d, res = CreateResult.modelOutputInvalid d) ∨
             (∃ d, res = CreateResult.generationFailed d)) :
    store2 = cleanup_old_rounds now store ∧
    ∀ rid, rid ∈ keysR store2 → rid ∈ keysR store := by
  rcases hfail with ⟨d, rfl⟩ | ⟨d, rfl⟩ <;>
    (simp only [create_round] at h
     repeat' split at h
     all_goals rw [Prod.mk.injEq] at h
     any_goals exact CreateResult.noConfusion h.1
     all_goals obtain ⟨h1, h2⟩ := h
     all_goals subst h2
     all_goals exact ⟨rfl, fun rid hmem => keysR_cleanup_subset now store rid hmem⟩)

/-- C5 witness: a concrete failing generation, with the post-store equal to
the swept pre-store and the fresh uuid never inserted. -/
theorem claim_C5_witness :
    create_round 1000 [("old", ⟨50, 0⟩)] (some (.obj [("theme", .str "Heat")])) 5 "new"
      genA_fail genC_ok = (.generationFailed "boom", []) ∧
    ([] : Rounds) = cleanup_old_rounds 1000 [("old", ⟨50, 0⟩)] ∧
    "new" ∉ keysR ([] : Rounds) := by
  have hc : create_round 1000 [("old", ⟨50, 0⟩)] (some (.obj [("theme", .str "Heat")])) 5
      "new" genA_fail genC_ok = (.generationFailed "boom", []) := by decide
  have h := claim_C5_generation_failure_no_insert 1000 [("old", ⟨50, 0⟩)]
    (some (.obj [("theme", .str "Heat")])) 5 "new" genA_fail genC_ok
    (.generationFailed "boom") [] hc (Or.inr ⟨"boom", rfl⟩)
  exact ⟨hc, h.1, by decide⟩

/-- C10 counterexample to the claim as stated: a round-creation body that is
a truthy non-object (here the JSON array [1]) is not answered with "theme is
required" — `body.get("theme")` raises AttributeError and the request dies
with an unhandled error. -/
theorem claim_C10_counterexample :
    create_round 0 [] (some (.list [.int 1])) 5 "n" genA_ok genC_ok =
      (.unhandledError, []) ∧
    CreateResult.unhandledError ≠ CreateResult.themeRequired :=
  ⟨by decide, by decide⟩

/-- C10 (amended): an absent body, a falsy JSON body, or an object whose
"theme" entry is missing or falsy all yield the "theme is required"
ValidationFailure with no record created; but a truthy non-object body
instead raises an unhandled AttributeError (HTTP 500), again with no record
created. -/
theorem claim_C10_body_handling (now : Int) (store : Rounds) (target : Int)
    (newId : String) (gA : String → GenResult Anchors)
    (gC : String → Anchors → Int → GenResult String) :
    (∀ body : Option PyVal,
      (body = Option.none ∨ (∃ v, body = some v ∧ pyTruthy v = false) ∨
       (∃ fields, body = some (.obj fields) ∧ pyTruthy (dictGet fields "theme") = false)) →
      create_round now store body target newId gA gC =
        (.themeRequired, cleanup_old_rounds now store)) ∧
    (∀ v : PyVal, pyTruthy v = true → (∀ fields, v ≠ .obj fields) →
      create_round now store (some v) target newId gA gC =
        (.unhandledError, cleanup_old_rounds now store)) := by
  have hstrip : pyStrip "" = "" := by decide
  constructor
  · intro body hb
    rcases hb with rfl | ⟨v, rfl, hv⟩ | ⟨fields, rfl, hth⟩
    · simp [create_round, bodyOrEmpty, dictGet, pyTruthy, hstrip]
    · cases v <;> simp [pyTruthy] at hv <;>
        simp [create_round, bodyOrEmpty, pyTruthy, dictGet, hstrip, hv]
    · rcases fields with _ | ⟨p, rest⟩
      · simp [create_round, bodyOrEmpty, pyTruthy, dictGet, hstrip]
      · have hb : bodyOrEmpty (some (.obj (p :: rest))) = .obj (p :: rest) := by
          simp [bodyOrEmpty, pyTruthy]
        simp [create_round, hb, hth, hstrip]
  · intro v hv hnot
    cases v
    case obj fields => exact absurd rfl (hnot fields)
    all_goals simp [pyTruthy] at hv
    all_goals simp [create_round, bodyOrEmpty, pyTruthy, hv]

/-- C10 witness: an absent body gives "theme is required"; the truthy
non-object body 5 gives the unhandled error. -/
theorem claim_C10_witness :
    create_round 0 [] Option.none 5 "n" genA_ok genC_ok = (.themeRequired, []) ∧
    create_round 0 [] (some (.int 5)) 5 "n" genA_ok genC_ok = (.unhandledError, []) := by
  have h := claim_C10_body_handling 0 [] 5 "n" genA_ok genC_ok
  exact ⟨h.1 Option.none (Or.inl rfl),
    h.2 (.int 5) (by decide) (fun fields hc => PyVal.noConfusion hc)⟩
